import Mathlib

/-!
Shallow embedding of `src/app/pages/basePage.tsx` from apicurio-registry-mt-ui:
the page-load retry state machine of `PageComponent`, its error handling, and
the tenant-scoped configuration derivation of `TenantPageComponent`.

Modelling choices:
* A promise is represented by its settled outcome, `Except ε Unit`: an
  operation either resolves or rejects with an error of type `ε`.
* `createLoaders()` may return `null`, a single promise, or an array of
  promises; we model its result as `Option (Loaders ε)`, where `Loaders`
  distinguishes the single-promise case from the array case (the source
  normalises a non-array result by wrapping it in a one-element array).
* The component state fields are all optional in the TypeScript interface
  `PageState`; we keep them as `Option` values and reproduce the source's
  truthiness / `!== undefined` checks literally.
* Successive load cycles may see different producer results, so the producer
  is indexed by the attempt number (0-based): `producer n` is what
  `createLoaders()` returns on its (n+1)-th invocation.
* `loadPageData` is recursive through `setTimeout`; we fold a whole run into
  one recursive function that also accumulates the scheduled backoff delay
  (in milliseconds) and the number of producer invocations.
-/

/-- Source: `const MAX_RETRIES: number = 5;` -/
def MAX_RETRIES : Nat := 5

/-- Source: `export enum PageErrorType { React, Server }` -/
inductive PageErrorType : Type where
  | React : PageErrorType
  | Server : PageErrorType
deriving DecidableEq, Repr

/-- Source: the `PageError` record built in `handleError`:
`{ error, errorMessage, type: errorType }`.  The original cause has type `ε`
and the human-readable message is a string. -/
structure PageError (ε : Type) where
  error : ε
  errorMessage : String
  type : PageErrorType
deriving DecidableEq, Repr

/-- Source: interface `PageState` — all fields optional. -/
structure PageState (ε : Type) where
  pageLoadRetries : Option Nat
  isLoading : Option Bool
  isError : Option Bool
  error : Option (PageError ε)
deriving DecidableEq, Repr

deriving instance DecidableEq for Except

/-- Result of `createLoaders()` when it is not `null`: either a single
promise or an array of promises. -/
inductive Loaders (ε : Type) : Type where
  | single : Except ε Unit → Loaders ε
  | multiple : List (Except ε Unit) → Loaders ε
deriving DecidableEq, Repr

/-- Source: `if (!Array.isArray(loaders)) { loaders = [ loaders ]; }` -/
def loadersToList {ε : Type} : Loaders ε → List (Except ε Unit)
  | Loaders.single p => [p]
  | Loaders.multiple ps => ps

/-- Semantics of `Promise.all`: resolves iff every operation resolves;
rejects with the first rejection otherwise. -/
def promiseAll {ε : Type} : List (Except ε Unit) → Except ε Unit
  | [] => Except.ok ()
  | Except.ok _ :: rest => promiseAll rest
  | Except.error e :: _ => Except.error e

/-- Source: `this.setSingleState("isLoading", b)`. -/
def setSingleStateIsLoading {ε : Type} (s : PageState ε) (b : Bool) : PageState ε :=
  { s with isLoading := some b }

/-- Source: `getRetries()` — `this.state.pageLoadRetries !== undefined ?
this.state.pageLoadRetries as number : 0`. -/
def getRetries {ε : Type} (s : PageState ε) : Nat :=
  s.pageLoadRetries.getD 0

/-- Source: `incrementRetries()` — `const retries = this.getRetries() + 1;
this.setSingleState("pageLoadRetries", retries);`. -/
def incrementRetries {ε : Type} (s : PageState ε) : PageState ε :=
  { s with pageLoadRetries := some (getRetries s + 1) }

/-- Source: `isError()` — `this.state.isError ? true : false`. -/
def isError {ε : Type} (s : PageState ε) : Bool :=
  s.isError.getD false

/-- Source: `isLoading()` — `this.state.isLoading ? true : false`. -/
def isLoadingState {ε : Type} (s : PageState ε) : Bool :=
  s.isLoading.getD false

/-- Source: `handleError(errorType, error, errorMessage)` — logs, then
`setMultiState({ error: { error, errorMessage, type: errorType }, isError: true })`. -/
def handleError {ε : Type} (s : PageState ε) (errorType : PageErrorType)
    (error : ε) (errorMessage : String) : PageState ε :=
  { s with
    error := some { error := error, errorMessage := errorMessage, type := errorType }
    isError := some true }

/-- Source: `handleServerError(error, errorMessage)` —
`this.handleError(PageErrorType.Server, error, errorMessage)`. -/
def handleServerError {ε : Type} (s : PageState ε) (error : ε)
    (errorMessage : String) : PageState ε :=
  handleError s PageErrorType.Server error errorMessage

/-- Source: `componentDidCatch(error, errorInfo)` —
`this.handleError(PageErrorType.React, error, errorInfo)`. -/
def componentDidCatch {ε : Type} (s : PageState ε) (error : ε)
    (errorInfo : String) : PageState ε :=
  handleError s PageErrorType.React error errorInfo

/-- The three possible outputs of `render()`: the error page, the loading
spinner section, or the concrete page content (`renderPage()`). -/
inductive RenderResult : Type where
  | errorPage : RenderResult
  | loadingSpinner : RenderResult
  | page : RenderResult
deriving DecidableEq, Repr

/-- Source: `render()` — `if (this.isError()) { return <ErrorPage .../> }
else if (this.state.isLoading) { spinner } else { return this.renderPage(); }`. -/
def render {ε : Type} (s : PageState ε) : RenderResult :=
  if isError s then RenderResult.errorPage
  else if s.isLoading.getD false then RenderResult.loadingSpinner
  else RenderResult.page

/-- Source: `initializeState()` —
`{ ...this.initializePageState(), isLoading: true }`. -/
def initializeState {ε : Type} (pageState : PageState ε) : PageState ε :=
  { pageState with isLoading := some true }

/-- The component state at construction.  `initializePageState()` is abstract
and concrete pages initialise only their own extra fields, so the loader-managed
fields of `PageState` start out `undefined`. -/
def emptyPageState (ε : Type) : PageState ε :=
  { pageLoadRetries := none, isLoading := none, isError := none, error := none }

/-- The state produced by `initializeState()` at construction time. -/
def initialState (ε : Type) : PageState ε :=
  initializeState (emptyPageState ε)

/-- The observable outcome of one full run of `loadPageData` (following the
`setTimeout` recursion to its end): the final component state, the sum of all
scheduled backoff delays in milliseconds, and how many times `createLoaders()`
was invoked. -/
structure LoadOutcome (ε : Type) where
  state : PageState ε
  totalDelay : Nat
  invocations : Nat
deriving DecidableEq, Repr

/-- Source: `loadPageData()`.  `producer n` models what `createLoaders()`
returns on its (n+1)-th invocation.  The function mirrors the source:
`null` or an empty array clears `isLoading`; otherwise `isLoading` is set and
`Promise.all` is awaited; on rejection, if `getRetries() < MAX_RETRIES` the
retry counter is incremented and the load repeats after `2^retries * 100` ms,
otherwise `handleServerError(error, "Error loading page data.")` runs. -/
def loadPageData {ε : Type} (producer : Nat → Option (Loaders ε))
    (attempt : Nat) (s : PageState ε) : LoadOutcome ε :=
  match producer attempt with
  | none => { state := setSingleStateIsLoading s false, totalDelay := 0, invocations := 1 }
  | some lds =>
    if (loadersToList lds).length = 0 then
      { state := setSingleStateIsLoading s false, totalDelay := 0, invocations := 1 }
    else
      match promiseAll (loadersToList lds) with
      | Except.ok _ =>
        { state := setSingleStateIsLoading (setSingleStateIsLoading s true) false
          totalDelay := 0, invocations := 1 }
      | Except.error error =>
        if _h : getRetries (setSingleStateIsLoading s true) < MAX_RETRIES then
          { state := (loadPageData producer (attempt + 1)
              (incrementRetries (setSingleStateIsLoading s true))).state
            totalDelay := 2 ^ getRetries (setSingleStateIsLoading s true) * 100 +
              (loadPageData producer (attempt + 1)
                (incrementRetries (setSingleStateIsLoading s true))).totalDelay
            invocations := 1 + (loadPageData producer (attempt + 1)
              (incrementRetries (setSingleStateIsLoading s true))).invocations }
        else
          { state := handleServerError (setSingleStateIsLoading s true) error
              "Error loading page data."
            totalDelay := 0
            invocations := 1 }
termination_by MAX_RETRIES + 1 - getRetries s
decreasing_by
  simp only [incrementRetries, setSingleStateIsLoading, getRetries, Option.getD_some] at *
  omega

/-- JS `String.prototype.replace` with a string pattern replaces only the
first occurrence of the pattern (the whole string is returned unchanged when
the pattern does not occur), here on character lists. -/
def replaceFirstList (s pat repl : List Char) : List Char :=
  if pat.isPrefixOf s then repl ++ s.drop pat.length
  else
    match s with
    | [] => []
    | c :: rest => c :: replaceFirstList rest pat repl

/-- JS `s.replace(pat, repl)` for a plain string pattern. -/
def jsReplace (s pat repl : String) : String :=
  { data := replaceFirstList s.data pat.data repl.data }

/-- The `artifacts` part of the registry config object: only its `url` field
is touched by `federatedConfig`. -/
structure ArtifactsConfig where
  url : String
deriving DecidableEq, Repr

/-- The `ui` part of the registry config object: only its `navPrefixPath`
field is touched by `federatedConfig`. -/
structure UiConfig where
  navPrefixPath : String
deriving DecidableEq, Repr

/-- The registry config object as used by `federatedConfig`: the `artifacts`
and `ui` fields may each be absent. -/
structure RegistryConfig where
  artifacts : Option ArtifactsConfig
  ui : Option UiConfig
deriving DecidableEq, Repr

/-- Source: `navPath()` — `const path = ` followed by the template
`/t/` + tenant id. -/
def navPath (tenantId : String) : String :=
  "/t/" ++ tenantId

/-- Source: `federatedConfig()` — starts from the provided config object,
computes `registryApi = (registryApisUrl + "/registry").replace(":tenantId",
tenantId)`, then `if (config.artifacts) config.artifacts.url = registryApi;`
and `if (config.ui) config.ui.navPrefixPath = navPath();`.  The config object
and the base URL come from the config service; they are parameters here. -/
def federatedConfig (config : RegistryConfig) (registryApisUrl : String)
    (tenantId : String) : RegistryConfig :=
  let registryApi : String := jsReplace (registryApisUrl ++ "/registry") ":tenantId" tenantId
  let config1 : RegistryConfig :=
    match config.artifacts with
    | some a => { config with artifacts := some { a with url := registryApi } }
    | none => config
  match config1.ui with
  | some u => { config1 with ui := some { u with navPrefixPath := navPath tenantId } }
  | none => config1

/-- The producer result `r` yields a nonempty batch of operations whose
aggregation rejects with error `e` (a failing load cycle). -/
def failsWith {ε : Type} (r : Option (Loaders ε)) (e : ε) : Prop :=
  ∃ lds, r = some lds ∧ loadersToList lds ≠ [] ∧
    promiseAll (loadersToList lds) = Except.error e

/-- The producer result `r` yields a nonempty batch of operations that all
resolve (a succeeding load cycle with at least one operation). -/
def succeedsNonempty {ε : Type} (r : Option (Loaders ε)) : Prop :=
  ∃ lds, r = some lds ∧ loadersToList lds ≠ [] ∧
    promiseAll (loadersToList lds) = Except.ok ()

/-- The producer result `r` yields no operations: `null` or an empty array. -/
def yieldsNoOps {ε : Type} (r : Option (Loaders ε)) : Prop :=
  r = none ∨ ∃ lds, r = some lds ∧ loadersToList lds = []

/-- A producer whose single operation rejects on every load cycle. -/
def alwaysFailProducer : Nat → Option (Loaders Nat) :=
  fun _ => some (Loaders.multiple [Except.error 7])

/-- A producer that rejects on load cycles 1–4 and resolves on cycle 5. -/
def failFourProducer : Nat → Option (Loaders Nat) :=
  fun n => if n < 4 then some (Loaders.multiple [Except.error 7])
           else some (Loaders.multiple [Except.ok (), Except.ok ()])

/-- A producer that returns `null` (no operations). -/
def nullProducer : Nat → Option (Loaders Nat) :=
  fun _ => none

/-- A producer whose operations all resolve on every load cycle. -/
def okProducer : Nat → Option (Loaders Nat) :=
  fun _ => some (Loaders.multiple [Except.ok ()])

/-! Helper lemmas about the loader. -/

theorem getRetries_setIsLoading {ε : Type} (s : PageState ε) (b : Bool) :
    getRetries (setSingleStateIsLoading s b) = getRetries s := rfl

theorem getRetries_incrementRetries {ε : Type} (s : PageState ε) :
    getRetries (incrementRetries s) = getRetries s + 1 := rfl

theorem promiseAll_ok_iff {ε : Type} (l : List (Except ε Unit)) :
    promiseAll l = Except.ok () ↔ ∀ p ∈ l, p = Except.ok () := by
  induction l with
  | nil => simp [promiseAll]
  | cons p rest ih =>
    cases p with
    | ok u => cases u; simp [promiseAll, ih]
    | error e => simp [promiseAll]

theorem promiseAll_error_of_not_all_ok {ε : Type} (l : List (Except ε Unit))
    (h : ¬ ∀ p ∈ l, p = Except.ok ()) : ∃ e, promiseAll l = Except.error e := by
  cases hpa : promiseAll l with
  | ok u => cases u; exact absurd ((promiseAll_ok_iff l).mp hpa) h
  | error e => exact ⟨e, rfl⟩

theorem loadPageData_noOps_eq {ε : Type} (producer : Nat → Option (Loaders ε))
    (attempt : Nat) (s : PageState ε) (h : yieldsNoOps (producer attempt)) :
    loadPageData producer attempt s =
      { state := setSingleStateIsLoading s false, totalDelay := 0, invocations := 1 } := by
  rw [loadPageData.eq_def]
  rcases h with hp | ⟨lds, hp, hempty⟩
  · rw [hp]
  · rw [hp]
    simp [hempty]

theorem loadPageData_success_eq {ε : Type} (producer : Nat → Option (Loaders ε))
    (attempt : Nat) (s : PageState ε) (h : succeedsNonempty (producer attempt)) :
    loadPageData producer attempt s =
      { state := setSingleStateIsLoading (setSingleStateIsLoading s true) false
        totalDelay := 0, invocations := 1 } := by
  obtain ⟨lds, hp, hne, hok⟩ := h
  rw [loadPageData.eq_def, hp]
  simp [List.length_eq_zero, hne, hok]

theorem loadPageData_fail_step {ε : Type} (producer : Nat → Option (Loaders ε))
    (attempt : Nat) (s : PageState ε) (e : ε) (hf : failsWith (producer attempt) e)
    (hlt : getRetries s < MAX_RETRIES) :
    loadPageData producer attempt s =
      { state := (loadPageData producer (attempt + 1)
          (incrementRetries (setSingleStateIsLoading s true))).state
        totalDelay := 2 ^ getRetries s * 100 +
          (loadPageData producer (attempt + 1)
            (incrementRetries (setSingleStateIsLoading s true))).totalDelay
        invocations := 1 + (loadPageData producer (attempt + 1)
          (incrementRetries (setSingleStateIsLoading s true))).invocations } := by
  obtain ⟨lds, hp, hne, hfail⟩ := hf
  rw [loadPageData.eq_def, hp]
  simp [List.length_eq_zero, hne, hfail, getRetries_setIsLoading, hlt]

theorem loadPageData_fail_terminal {ε : Type} (producer : Nat → Option (Loaders ε))
    (attempt : Nat) (s : PageState ε) (e : ε) (hf : failsWith (producer attempt) e)
    (hge : ¬ getRetries s < MAX_RETRIES) :
    loadPageData producer attempt s =
      { state := handleServerError (setSingleStateIsLoading s true) e
          "Error loading page data."
        totalDelay := 0, invocations := 1 } := by
  obtain ⟨lds, hp, hne, hfail⟩ := hf
  rw [loadPageData.eq_def, hp]
  simp [List.length_eq_zero, hne, hfail, getRetries_setIsLoading, hge]

theorem loadPageData_allFail {ε : Type} (producer : Nat → Option (Loaders ε))
    (e : Nat → ε) (h : ∀ n, failsWith (producer n) (e n)) :
    ∀ k, k ≤ MAX_RETRIES → ∀ attempt (s : PageState ε), getRetries s = MAX_RETRIES - k →
    loadPageData producer attempt s =
      { state := { pageLoadRetries := some MAX_RETRIES, isLoading := some true
                   isError := some true
                   error := some { error := e (attempt + k)
                                   errorMessage := "Error loading page data."
                                   type := PageErrorType.Server } }
        totalDelay := 100 * (2 ^ MAX_RETRIES - 2 ^ (MAX_RETRIES - k))
        invocations := k + 1 } := by
  intro k
  induction k with
  | zero =>
    intro _hk attempt s hr
    have hr5 : getRetries s = MAX_RETRIES := by simpa using hr
    have hnlt : ¬ getRetries s < MAX_RETRIES := by omega
    rw [loadPageData_fail_terminal producer attempt s (e attempt) (h attempt) hnlt]
    have hp5 : s.pageLoadRetries = some MAX_RETRIES := by
      unfold getRetries at hr5
      cases hq : s.pageLoadRetries with
      | none => rw [hq] at hr5; simp [MAX_RETRIES] at hr5
      | some v => rw [hq] at hr5; simpa using hr5
    simp [handleServerError, handleError, setSingleStateIsLoading, hp5, MAX_RETRIES]
  | succ k ih =>
    intro hk attempt s hr
    have hlt : getRetries s < MAX_RETRIES := by
      rw [hr]; simp [MAX_RETRIES] at hk ⊢; omega
    rw [loadPageData_fail_step producer attempt s (e attempt) (h attempt) hlt]
    have hr2 : getRetries (incrementRetries (setSingleStateIsLoading s true)) =
        MAX_RETRIES - k := by
      rw [getRetries_incrementRetries, getRetries_setIsLoading, hr]
      simp [MAX_RETRIES] at hk ⊢; omega
    rw [ih (by omega) (attempt + 1) _ hr2]
    have hidx : attempt + 1 + k = attempt + (k + 1) := by omega
    have hpow : MAX_RETRIES - k = (MAX_RETRIES - (k + 1)) + 1 := by
      simp [MAX_RETRIES] at hk ⊢; omega
    have hle : 2 ^ (MAX_RETRIES - (k + 1)) * 2 ≤ 2 ^ MAX_RETRIES := by
      rw [← pow_succ]
      exact Nat.pow_le_pow_right (by norm_num) (by simp only [MAX_RETRIES]; omega)
    simp only [LoadOutcome.mk.injEq, hidx, hr, hpow, pow_succ, eq_self_iff_true,
      true_and, and_true]
    omega

theorem loadPageData_retries_bounds {ε : Type} (producer : Nat → Option (Loaders ε))
    (attempt : Nat) (s : PageState ε) :
    getRetries s ≤ getRetries (loadPageData producer attempt s).state ∧
    getRetries (loadPageData producer attempt s).state ≤ max (getRetries s) MAX_RETRIES := by
  induction attempt, s using loadPageData.induct producer with
  | case1 attempt s hp =>
    rw [loadPageData_noOps_eq producer attempt s (Or.inl hp)]
    rw [getRetries_setIsLoading]
    omega
  | case2 attempt s lds hp hlen =>
    rw [loadPageData_noOps_eq producer attempt s
      (Or.inr ⟨lds, hp, List.length_eq_zero.mp hlen⟩)]
    rw [getRetries_setIsLoading]
    omega
  | case3 attempt s lds hp hlen u hok =>
    cases u
    rw [loadPageData_success_eq producer attempt s
      ⟨lds, hp, fun hc => hlen (by simp [hc]), hok⟩]
    rw [getRetries_setIsLoading, getRetries_setIsLoading]
    omega
  | case4 attempt s lds hp hlen err herr hlt ih =>
    rw [loadPageData_fail_step producer attempt s err
      ⟨lds, hp, fun hc => hlen (by simp [hc]), herr⟩
      (by rwa [getRetries_setIsLoading] at hlt)]
    dsimp only
    rw [getRetries_setIsLoading] at hlt
    obtain ⟨ih1, ih2⟩ := ih
    rw [getRetries_incrementRetries, getRetries_setIsLoading] at ih1 ih2
    constructor
    · omega
    · omega
  | case5 attempt s lds hp hlen err herr hge =>
    rw [loadPageData_fail_terminal producer attempt s err
      ⟨lds, hp, fun hc => hlen (by simp [hc]), herr⟩
      (by rwa [getRetries_setIsLoading] at hge)]
    have : getRetries (handleServerError (setSingleStateIsLoading s true) err
        "Error loading page data.") = getRetries s := rfl
    rw [this]
    omega

/-! Claim theorems. -/

/-- C1: for a producer whose operations fail on every load cycle, the loader
performs exactly 5 retries (6 total invocations of the producer), then reaches
a terminal error state recording the triggering error and the fixed message
"Error loading page data.", and never schedules a 6th retry. -/
theorem C1_all_fail_terminal_after_five_retries {ε : Type}
    (producer : Nat → Option (Loaders ε)) (e : Nat → ε)
    (h : ∀ n, failsWith (producer n) (e n)) :
    loadPageData producer 0 (initialState ε) =
      { state := { pageLoadRetries := some 5, isLoading := some true
                   isError := some true
                   error := some { error := e 5
                                   errorMessage := "Error loading page data."
                                   type := PageErrorType.Server } }
        totalDelay := 100 * (1 + 2 + 4 + 8 + 16)
        invocations := 6 } := by
  have hrun := loadPageData_allFail producer e h MAX_RETRIES (le_refl _) 0
    (initialState ε) rfl
  rw [hrun]
  norm_num [MAX_RETRIES]

/-- Witness for C1: a producer whose single operation rejects with 7 on every
cycle. -/
theorem C1_witness :
    (∀ n, failsWith (alwaysFailProducer n) ((fun _ => 7) n)) ∧
    loadPageData alwaysFailProducer 0 (initialState Nat) =
      { state := { pageLoadRetries := some 5, isLoading := some true
                   isError := some true
                   error := some { error := (fun (_ : Nat) => 7) 5
                                   errorMessage := "Error loading page data."
                                   type := PageErrorType.Server } }
        totalDelay := 100 * (1 + 2 + 4 + 8 + 16)
        invocations := 6 } :=
  have hf : ∀ n, failsWith (alwaysFailProducer n) ((fun _ => 7) n) := fun _ =>
    ⟨Loaders.multiple [Except.error 7], rfl, by simp [loadersToList], rfl⟩
  ⟨hf, C1_all_fail_terminal_after_five_retries alwaysFailProducer (fun _ => 7) hf⟩

/-- C3: for a producer that yields the same nonempty batch of operations on
every cycle, the loader reaches the success (not-loading, not-error) state if
and only if all of the operations resolve; any single failing operation makes
the run end in the error state instead (fail-fast aggregation, no partial
success). -/
theorem C3_success_iff_all_operations_resolve {ε : Type}
    (producer : Nat → Option (Loaders ε)) (lds : Loaders ε)
    (hconst : ∀ n, producer n = some lds)
    (hne : loadersToList lds ≠ []) :
    ((loadPageData producer 0 (initialState ε)).state.isLoading = some false ∧
      (loadPageData producer 0 (initialState ε)).state.isError ≠ some true) ↔
    ∀ p ∈ loadersToList lds, p = Except.ok () := by
  constructor
  · intro hgood
    by_contra hnot
    obtain ⟨e0, he0⟩ := promiseAll_error_of_not_all_ok _ hnot
    have hf : ∀ n, failsWith (producer n) ((fun _ => e0) n) := fun n =>
      ⟨lds, hconst n, hne, he0⟩
    have hrun := loadPageData_allFail producer (fun _ => e0) hf MAX_RETRIES (le_refl _) 0
      (initialState ε) rfl
    rw [hrun] at hgood
    simp at hgood
  · intro hall
    have hok : promiseAll (loadersToList lds) = Except.ok () :=
      (promiseAll_ok_iff _).mpr hall
    rw [loadPageData_success_eq producer 0 (initialState ε) ⟨lds, hconst 0, hne, hok⟩]
    simp [setSingleStateIsLoading, initialState, initializeState, emptyPageState]

/-- Witness for C3: a producer whose single operation resolves on every cycle. -/
theorem C3_witness :
    (∀ n, okProducer n = some (Loaders.multiple [Except.ok ()])) ∧
    loadersToList (Loaders.multiple [Except.ok ()]) ≠ ([] : List (Except Nat Unit)) ∧
    (((loadPageData okProducer 0 (initialState Nat)).state.isLoading = some false ∧
       (loadPageData okProducer 0 (initialState Nat)).state.isError ≠ some true) ↔
      ∀ p ∈ loadersToList (Loaders.multiple [Except.ok ()] : Loaders Nat),
        p = Except.ok ()) :=
  ⟨fun _ => rfl, by simp [loadersToList],
    C3_success_iff_all_operations_resolve okProducer (Loaders.multiple [Except.ok ()])
      (fun _ => rfl) (by simp [loadersToList])⟩

/-- C4: when the producer yields no operations (`null` or an empty array), the
load cycle only clears `isLoading` — one producer invocation, no delay — and
from the construction state this means success with retry count 0 and no
error. -/
theorem C4_no_operations_immediate_success {ε : Type}
    (producer : Nat → Option (Loaders ε)) (attempt : Nat) (s : PageState ε)
    (h : yieldsNoOps (producer attempt)) :
    loadPageData producer attempt s =
      { state := { s with isLoading := some false }, totalDelay := 0, invocations := 1 } ∧
    (loadPageData producer attempt (initialState ε)).state =
      { pageLoadRetries := none, isLoading := some false, isError := none, error := none } ∧
    getRetries (loadPageData producer attempt (initialState ε)).state = 0 ∧
    (loadPageData producer attempt (initialState ε)).state.error = none := by
  have h1 := loadPageData_noOps_eq producer attempt s h
  have h2 := loadPageData_noOps_eq producer attempt (initialState ε) h
  exact ⟨h1, by rw [h2]; rfl, by rw [h2]; rfl, by rw [h2]; rfl⟩

/-- Witness for C4: the producer that returns `null`, run from the
construction state. -/
theorem C4_witness :
    yieldsNoOps (nullProducer 0) ∧
    (loadPageData nullProducer 0 (initialState Nat) =
      { state := { initialState Nat with isLoading := some false }
        totalDelay := 0, invocations := 1 } ∧
    (loadPageData nullProducer 0 (initialState Nat)).state =
      { pageLoadRetries := none, isLoading := some false, isError := none, error := none } ∧
    getRetries (loadPageData nullProducer 0 (initialState Nat)).state = 0 ∧
    (loadPageData nullProducer 0 (initialState Nat)).state.error = none) :=
  ⟨Or.inl rfl, C4_no_operations_immediate_success nullProducer 0 (initialState Nat)
    (Or.inl rfl)⟩

/-- C2: on each failed cycle with retry count r below the maximum, the loader
increments the retry count to r + 1 and re-invokes the producer after a delay
of 2^r * 100 ms; for a producer failing on cycles 1–4 and succeeding on
cycle 5, the run ends in the success state with retry count 4 and total
scheduled delay 100 * (1 + 2 + 4 + 8) ms. -/
theorem C2_exponential_backoff_and_recovery_run {ε : Type}
    (producer : Nat → Option (Loaders ε)) (e : Nat → ε)
    (hfail : ∀ n, n < 4 → failsWith (producer n) (e n))
    (hsucc : succeedsNonempty (producer 4)) :
    (∀ (producer2 : Nat → Option (Loaders ε)) (a : Nat) (s : PageState ε) (e2 : ε),
        failsWith (producer2 a) e2 → getRetries s < MAX_RETRIES →
        getRetries (incrementRetries (setSingleStateIsLoading s true)) = getRetries s + 1 ∧
        loadPageData producer2 a s =
          { state := (loadPageData producer2 (a + 1)
              (incrementRetries (setSingleStateIsLoading s true))).state
            totalDelay := 2 ^ getRetries s * 100 +
              (loadPageData producer2 (a + 1)
                (incrementRetries (setSingleStateIsLoading s true))).totalDelay
            invocations := 1 + (loadPageData producer2 (a + 1)
              (incrementRetries (setSingleStateIsLoading s true))).invocations }) ∧
    loadPageData producer 0 (initialState ε) =
      { state := { pageLoadRetries := some 4, isLoading := some false
                   isError := none, error := none }
        totalDelay := 100 * (1 + 2 + 4 + 8)
        invocations := 5 } := by
  constructor
  · intro producer2 a s e2 hf hlt
    exact ⟨by rw [getRetries_incrementRetries, getRetries_setIsLoading],
      loadPageData_fail_step producer2 a s e2 hf hlt⟩
  · rw [loadPageData_fail_step producer 0 (initialState ε) (e 0)
      (hfail 0 (by norm_num))
      (by simp [getRetries, initialState, initializeState, emptyPageState, MAX_RETRIES])]
    have hs1 : incrementRetries (setSingleStateIsLoading (initialState ε) true) =
        ({ pageLoadRetries := some 1, isLoading := some true
           isError := none, error := none } : PageState ε) := rfl
    rw [hs1]
    rw [loadPageData_fail_step producer 1 _ (e 1) (hfail 1 (by norm_num))
      (by simp [getRetries, MAX_RETRIES])]
    have hs2 : incrementRetries (setSingleStateIsLoading
        ({ pageLoadRetries := some 1, isLoading := some true
           isError := none, error := none } : PageState ε) true) =
        ({ pageLoadRetries := some 2, isLoading := some true
           isError := none, error := none } : PageState ε) := rfl
    rw [hs2]
    rw [loadPageData_fail_step producer 2 _ (e 2) (hfail 2 (by norm_num))
      (by simp [getRetries, MAX_RETRIES])]
    have hs3 : incrementRetries (setSingleStateIsLoading
        ({ pageLoadRetries := some 2, isLoading := some true
           isError := none, error := none } : PageState ε) true) =
        ({ pageLoadRetries := some 3, isLoading := some true
           isError := none, error := none } : PageState ε) := rfl
    rw [hs3]
    rw [loadPageData_fail_step producer 3 _ (e 3) (hfail 3 (by norm_num))
      (by simp [getRetries, MAX_RETRIES])]
    have hs4 : incrementRetries (setSingleStateIsLoading
        ({ pageLoadRetries := some 3, isLoading := some true
           isError := none, error := none } : PageState ε) true) =
        ({ pageLoadRetries := some 4, isLoading := some true
           isError := none, error := none } : PageState ε) := rfl
    rw [hs4]
    rw [loadPageData_success_eq producer 4 _ hsucc]
    simp only [setSingleStateIsLoading, LoadOutcome.mk.injEq, PageState.mk.injEq]
    norm_num [getRetries, initialState, initializeState, emptyPageState]

/-- Witness for C2: a producer whose single operation rejects with 7 on
cycles 1–4 and whose two operations both resolve on cycle 5. -/
theorem C2_witness :
    (∀ n, n < 4 → failsWith (failFourProducer n) ((fun _ => 7) n)) ∧
    succeedsNonempty (failFourProducer 4) ∧
    ((∀ (producer2 : Nat → Option (Loaders Nat)) (a : Nat) (s : PageState Nat) (e2 : Nat),
        failsWith (producer2 a) e2 → getRetries s < MAX_RETRIES →
        getRetries (incrementRetries (setSingleStateIsLoading s true)) = getRetries s + 1 ∧
        loadPageData producer2 a s =
          { state := (loadPageData producer2 (a + 1)
              (incrementRetries (setSingleStateIsLoading s true))).state
            totalDelay := 2 ^ getRetries s * 100 +
              (loadPageData producer2 (a + 1)
                (incrementRetries (setSingleStateIsLoading s true))).totalDelay
            invocations := 1 + (loadPageData producer2 (a + 1)
              (incrementRetries (setSingleStateIsLoading s true))).invocations }) ∧
    loadPageData failFourProducer 0 (initialState Nat) =
      { state := { pageLoadRetries := some 4, isLoading := some false
                   isError := none, error := none }
        totalDelay := 100 * (1 + 2 + 4 + 8)
        invocations := 5 }) :=
  have hfail : ∀ n, n < 4 → failsWith (failFourProducer n) ((fun _ => 7) n) :=
    fun n hn => ⟨Loaders.multiple [Except.error 7], by simp [failFourProducer, hn],
      by simp [loadersToList], rfl⟩
  have hsucc : succeedsNonempty (failFourProducer 4) :=
    ⟨Loaders.multiple [Except.ok (), Except.ok ()], rfl, by simp [loadersToList], rfl⟩
  ⟨hfail, hsucc,
    C2_exponential_backoff_and_recovery_run failFourProducer (fun _ => 7) hfail hsucc⟩

/-- C5: a rendering-time fault (`componentDidCatch`) is exactly a direct call
to `handleError` with category `React`: it sets the terminal error state,
leaves the retry counter untouched (zero when starting from the construction
state), and gives the error view; it never enters the backoff/retry machinery
of `loadPageData`. -/
theorem C5_render_fault_terminal_without_retry {ε : Type} (s : PageState ε)
    (cause : ε) (errorInfo : String) :
    componentDidCatch s cause errorInfo =
      handleError s PageErrorType.React cause errorInfo ∧
    (componentDidCatch s cause errorInfo).pageLoadRetries = s.pageLoadRetries ∧
    (componentDidCatch s cause errorInfo).isError = some true ∧
    (componentDidCatch s cause errorInfo).error =
      some { error := cause, errorMessage := errorInfo, type := PageErrorType.React } ∧
    render (componentDidCatch s cause errorInfo) = RenderResult.errorPage ∧
    getRetries (componentDidCatch (initialState ε) cause errorInfo) = 0 :=
  ⟨rfl, rfl, rfl, rfl, rfl, rfl⟩

/-- C6: both fault categories funnel through `handleError`, which normalizes
them into the same structured record `{ error, errorMessage, type }`, raises
the `isError` flag, and makes `render()` show the error view — the error is
converted into a state transition, not thrown past the loader or swallowed. -/
theorem C6_errors_normalized_and_surfaced {ε : Type} (s : PageState ε)
    (t : PageErrorType) (cause : ε) (msg : String) :
    (handleError s t cause msg).error =
      some { error := cause, errorMessage := msg, type := t } ∧
    (handleError s t cause msg).isError = some true ∧
    render (handleError s t cause msg) = RenderResult.errorPage ∧
    componentDidCatch s cause msg = handleError s PageErrorType.React cause msg ∧
    handleServerError s cause msg = handleError s PageErrorType.Server cause msg :=
  ⟨rfl, rfl, rfl, rfl, rfl⟩

/-- C7: tenant config derivation substitutes the tenant id into the API URL
template and stamps the navigation prefix: for the template
ending in `/t/:tenantId` (with `/registry` appended) and tenant id "abc" the
derived URL ends in `/t/abc/registry` and `navPrefixPath` is `/t/abc`; a
missing `artifacts` or `ui` field stays absent (and a present one stays
present) instead of causing an error. -/
theorem C7_tenant_config_derivation (config : RegistryConfig)
    (apisUrl tid : String) :
    federatedConfig { artifacts := some { url := "old" }
                      ui := some { navPrefixPath := "old" } }
        "https://api.example.com/t/:tenantId" "abc" =
      { artifacts := some { url := "https://api.example.com/t/abc/registry" }
        ui := some { navPrefixPath := "/t/abc" } } ∧
    navPath "abc" = "/t/abc" ∧
    federatedConfig { artifacts := none, ui := none }
        "https://api.example.com/t/:tenantId" "abc" =
      { artifacts := none, ui := none } ∧
    (federatedConfig config apisUrl tid).artifacts.isSome = config.artifacts.isSome ∧
    (federatedConfig config apisUrl tid).ui.isSome = config.ui.isSome := by
  refine ⟨by decide, rfl, by decide, ?_, ?_⟩
  · obtain ⟨ca, cu⟩ := config
    cases ca <;> cases cu <;> simp [federatedConfig]
  · obtain ⟨ca, cu⟩ := config
    cases ca <;> cases cu <;> simp [federatedConfig]

/-- C8: at construction (`initializeState`, with the abstract
`initializePageState` leaving the loader-managed fields unset), the state has
`isLoading = true`, retry count 0, and no error recorded; `initializeState`
always forces `isLoading := true` and does not touch the retry counter or the
error slot of the page state it spreads. -/
theorem C8_construction_state {ε : Type} :
    (initialState ε).isLoading = some true ∧
    getRetries (initialState ε) = 0 ∧
    (initialState ε).error = none ∧
    (initialState ε).isError = none ∧
    ∀ ps : PageState ε,
      (initializeState ps).isLoading = some true ∧
      (initializeState ps).pageLoadRetries = ps.pageLoadRetries ∧
      (initializeState ps).error = ps.error ∧
      (initializeState ps).isError = ps.isError :=
  ⟨rfl, rfl, rfl, rfl, fun _ => ⟨rfl, rfl, rfl, rfl⟩⟩

/-- C9: `handleError` writes only the `error` record and the `isError` flag,
leaving `pageLoadRetries` and `isLoading` unchanged (so `isLoading` may stay
`true`), and `render()` gives the error view precedence over the loading view
whenever `isError` is set. -/
theorem C9_handleError_frame_and_render_precedence {ε : Type} (s : PageState ε)
    (t : PageErrorType) (cause : ε) (msg : String) :
    (handleError s t cause msg).pageLoadRetries = s.pageLoadRetries ∧
    (handleError s t cause msg).isLoading = s.isLoading ∧
    (handleError s t cause msg).isError = some true ∧
    (handleError s t cause msg).error =
      some { error := cause, errorMessage := msg, type := t } ∧
    ∀ s2 : PageState ε, render { s2 with isError := some true } = RenderResult.errorPage :=
  ⟨rfl, rfl, rfl, rfl, fun _ => rfl⟩

/-- C10: over a whole run of the loader the retry counter never decreases —
no path resets it, a successful cycle included — and, when it starts at or
below `MAX_RETRIES` (as it always does in a real lifetime), it never exceeds
`MAX_RETRIES`; `handleError` leaves it unchanged. -/
theorem C10_retries_monotone_and_bounded {ε : Type}
    (producer : Nat → Option (Loaders ε)) (attempt : Nat) (s : PageState ε)
    (hle : getRetries s ≤ MAX_RETRIES) :
    getRetries s ≤ getRetries (loadPageData producer attempt s).state ∧
    getRetries (loadPageData producer attempt s).state ≤ MAX_RETRIES ∧
    ∀ (s2 : PageState ε) (t : PageErrorType) (cause : ε) (msg : String),
      getRetries (handleError s2 t cause msg) = getRetries s2 := by
  obtain ⟨h1, h2⟩ := loadPageData_retries_bounds producer attempt s
  exact ⟨h1, by omega, fun _ _ _ _ => rfl⟩

/-- Witness for C10: the always-failing producer run from the construction
state, whose retry count is 0 ≤ MAX_RETRIES. -/
theorem C10_witness :
    getRetries (initialState Nat) ≤ MAX_RETRIES ∧
    (getRetries (initialState Nat) ≤
      getRetries (loadPageData alwaysFailProducer 0 (initialState Nat)).state ∧
    getRetries (loadPageData alwaysFailProducer 0 (initialState Nat)).state ≤ MAX_RETRIES ∧
    ∀ (s2 : PageState Nat) (t : PageErrorType) (cause : Nat) (msg : String),
      getRetries (handleError s2 t cause msg) = getRetries s2) :=
  ⟨by simp [getRetries, initialState, initializeState, emptyPageState],
    C10_retries_monotone_and_bounded alwaysFailProducer 0 (initialState Nat)
      (by simp [getRetries, initialState, initializeState, emptyPageState])⟩
